import Mathlib

/-!
Shallow embedding of `src/gpumonitor.py` (GPU tray monitor).

Modelling conventions:
* module-level config constants (`REMOTE_HOST`, `UPDATE_INTERVAL`, ...) become
  explicit parameters;
* module-level mutable globals (`ssh_client`, `connection_retry_count`,
  `last_connection_attempt`, `last_utilization`, `consecutive_errors`) become
  explicit state records threaded through the functions;
* the environment (network outcomes, the clock, the filesystem) is passed in
  as explicit data, one value per observable effect of the Python code;
* Python `int` is `Int` (or `Nat` where the value is a count/interval that the
  code only ever treats as a non-negative integer), strings are Lean `String`.
-/

/-- Python's `\s` character class, restricted to ASCII (the characters the
program can meet in `nvidia-smi` output). -/
def isSpaceChar (c : Char) : Bool :=
  c == ' ' || c == '\t' || c == '\n' || c == '\r' || c == '\x0b' || c == '\x0c'

/-- Case-insensitive character comparison, as `re.IGNORECASE` applies it to
literal pattern characters. -/
def ciChar (c p : Char) : Bool :=
  c.toLower == p.toLower

/-- Match a literal pattern case-insensitively at the head of the input;
returns the remaining input on success. -/
def matchLitCI : List Char → List Char → Option (List Char)
  | [], l => some l
  | _ :: _, [] => none
  | p :: ps, c :: cs => if ciChar c p then matchLitCI ps cs else none

/-- Value of a decimal digit run, as Python's `int()` reads the captured
group of `\d+`. -/
def digitVal (ds : List Char) : Nat :=
  ds.foldl (fun n c => n * 10 + (c.toNat - '0'.toNat)) 0

/-- One attempt of `re.search(r'<gpu_util>\s*(\d+)%', output, re.IGNORECASE)`
at a fixed start position (src/gpumonitor.py line 234).  Backtracking cannot
help this pattern (shrinking `\s*` would force `\d` to match a space char,
shrinking `\d+` would force `%` to match a digit), so the deterministic greedy
scan below is the exact match semantics. -/
def matchPrimaryAt (l : List Char) : Option Nat :=
  match matchLitCI "<gpu_util>".data l with
  | none => none
  | some rest =>
    let afterWs := rest.dropWhile isSpaceChar
    let ds := afterWs.takeWhile Char.isDigit
    match ds, afterWs.dropWhile Char.isDigit with
    | [], _ => none
    | _ :: _, '%' :: _ => some (digitVal ds)
    | _ :: _, _ => none

/-- `re.search` semantics for the primary pattern: leftmost start position
that matches. -/
def searchPrimary : List Char → Option Nat
  | [] => none
  | c :: cs =>
    match matchPrimaryAt (c :: cs) with
    | some v => some v
    | none => searchPrimary cs

/-- One attempt of the fallback `re.search(r'gpu_util[^>]*>(\d+)', output,
re.IGNORECASE)` at a fixed start position (src/gpumonitor.py line 240).
`[^>]*` cannot cross a `>`, so the `>` consumed is necessarily the first `>`
at or after the literal, and `\d+` must start immediately after it. -/
def matchFallbackAt (l : List Char) : Option Nat :=
  match matchLitCI "gpu_util".data l with
  | none => none
  | some rest =>
    match rest.dropWhile (fun c => !(c == '>')) with
    | '>' :: rest2 =>
      match rest2.takeWhile Char.isDigit with
      | [] => none
      | ds => some (digitVal ds)
    | _ => none

/-- `re.search` semantics for the fallback pattern. -/
def searchFallback : List Char → Option Nat
  | [] => none
  | c :: cs =>
    match matchFallbackAt (c :: cs) with
    | some v => some v
    | none => searchFallback cs

/-- Parsing portion of `get_gpu_utilization` (src/gpumonitor.py lines
228-246), applied to the stdout of `nvidia-smi -q -x`: empty (all-whitespace)
stdout gives "No GPU data"; otherwise the primary regex, then the fallback
regex, then "GPU data not found".  The surrounding `try`/`except` ("Parse
error: ...") is unreachable here since neither `re.search` nor `int()` on a
`\d+` capture can raise. -/
def parseList (out : List Char) : String × Int :=
  if out.all isSpaceChar then ("No GPU data", 0)
  else
    match searchPrimary out with
    | some u => ("GPU: " ++ toString u ++ "%", (u : Int))
    | none =>
      match searchFallback out with
      | some u => ("GPU: " ++ toString u ++ "%", (u : Int))
      | none => ("GPU data not found", 0)

/-- Python substring test `needle in hay` on character lists. -/
def strContainsList (needle : List Char) : List Char → Bool
  | [] => needle.isEmpty
  | c :: t => needle.isPrefixOf (c :: t) || strContainsList needle t

/-- Python substring test `needle in hay` on strings (case-sensitive). -/
def containsStr (hay needle : String) : Bool :=
  strContainsList needle.data hay.data

/-- The three icon states of the tray: `green_icon` (Normal), `red_icon`
(Alert), `gray_icon` (Offline/disconnected). -/
inductive ColorClass where
  | normal
  | alert
  | offline
deriving DecidableEq, Repr

/-- `has_error` of `update_tooltip` (src/gpumonitor.py line 270):
`util_pct == 0 and ("Error" in util_text or "Disconnected" in util_text)`. -/
def has_error_of (text : String) (util : Int) : Bool :=
  decide (util = 0) && (containsStr text "Error" || containsStr text "Disconnected")

/-- Icon selection of `update_tooltip` (src/gpumonitor.py lines 279-282):
gray when error, else red above the threshold, else green. -/
def select_color (hasErr : Bool) (util thr : Int) : ColorClass :=
  if hasErr then ColorClass.offline
  else if util > thr then ColorClass.alert
  else ColorClass.normal

/-- Tooltip truncation (src/gpumonitor.py line 276):
`util_text[:128] if len(util_text) > 128 else util_text`. -/
def truncate128 (s : String) : String :=
  if s.length > 128 then String.mk (s.data.take 128) else s

/-- The adaptive-polling globals `last_utilization` and `consecutive_errors`
(src/gpumonitor.py lines 72-73). -/
structure SchedState where
  last_utilization : Int
  consecutive_errors : Nat
deriving DecidableEq, Repr

/-- `get_adaptive_interval` (src/gpumonitor.py lines 100-123).  Returns the
sleep seconds together with the updated scheduler state; the function writes
only `consecutive_errors` (the loop, not this function, writes
`last_utilization`).  `fast_poll_threshold` is the constant 10 (line 74). -/
def get_adaptive_interval (adaptive : Bool) (base : Nat) (st : SchedState)
    (util_pct : Int) (has_err : Bool) : Nat × SchedState :=
  if !adaptive then (base, st)
  else if has_err then
    (max 2 (base / 2), {st with consecutive_errors := st.consecutive_errors + 1})
  else
    let st1 : SchedState := {st with consecutive_errors := 0}
    let util_change := (util_pct - st1.last_utilization).natAbs
    if util_change > 10 then (max 1 (base / 3), st1)
    else if util_change < 2 then (base * 2, st1)
    else (base, st1)

/-- The connection globals (src/gpumonitor.py lines 64-69):
`connected_active` abstracts `ssh_client is not None and transport is not
None and transport.is_active()`; `retry` is `connection_retry_count`;
`last_attempt` is `last_connection_attempt` (seconds). -/
structure ConnState where
  connected_active : Bool
  retry : Nat
  last_attempt : Int
deriving DecidableEq, Repr

/-- Outcome of one `paramiko` connect attempt, as seen by `init_ssh_client`:
immediate success, `PasswordRequiredException` (with the outcome of the
post-prompt second attempt), `NoValidConnectionsError`,
`AuthenticationException`, or any other exception. -/
inductive AttemptResult where
  | success
  | passphraseRequired (secondOk : Bool) (msg : String)
  | hostUnreachable
  | authFailed
  | otherError (msg : String)
deriving DecidableEq, Repr

/-- Result of `init_ssh_client`: the returned value (`none` = fell off the
end, i.e. success / already connected; `some msg` = the error string), the
updated connection globals, and how many interactive passphrase prompts
(`input("Enter key passphrase: ")`, line 163) the call performed. -/
structure InitResult where
  error : Option String
  state : ConnState
  prompts : Nat
deriving DecidableEq, Repr

/-- `init_ssh_client` (src/gpumonitor.py lines 125-208).  The backoff gate
(lines 129-132) runs before everything else; `last_connection_attempt` is
then updated (line 134) before the already-connected check (lines 136-137).
`connection_backoff_base` is 5, the exponent is capped at 5 (line 130).
The backoff message renders the Python float format `f"{t:.1f}s"` as integer
seconds; only its presence (a non-`None` return) matters to the callers. -/
def init_ssh_client (host : String) (now : Int) (env : AttemptResult)
    (st : ConnState) : InitResult :=
  let backoff : Int := 5 ^ min st.retry 5
  if now - st.last_attempt < backoff then
    { error := some ("Backing off for " ++ toString backoff ++ "s"),
      state := st, prompts := 0 }
  else
    let st1 : ConnState := {st with last_attempt := now}
    if st1.connected_active then { error := none, state := st1, prompts := 0 }
    else
      match env with
      | AttemptResult.success =>
        { error := none, state := {st1 with connected_active := true, retry := 0},
          prompts := 0 }
      | AttemptResult.passphraseRequired ok msg =>
        if ok then
          { error := none, state := {st1 with connected_active := true, retry := 0},
            prompts := 1 }
        else
          { error := some ("Auth failed: " ++ msg),
            state := {st1 with connected_active := false, retry := st1.retry + 1},
            prompts := 1 }
      | AttemptResult.hostUnreachable =>
        { error := some ("Host unreachable: " ++ host),
          state := {st1 with connected_active := false, retry := st1.retry + 1},
          prompts := 0 }
      | AttemptResult.authFailed =>
        { error := some "Authentication failed",
          state := {st1 with connected_active := false, retry := st1.retry + 1},
          prompts := 0 }
      | AttemptResult.otherError msg =>
        { error := some ("Connection error: " ++ msg),
          state := {st1 with connected_active := false, retry := st1.retry + 1},
          prompts := 0 }

/-- A sequence of `init_ssh_client` calls over one process run: folds the
state through and sums the interactive passphrase prompts shown. -/
def run_calls (host : String) : List (Int × AttemptResult) → ConnState → ConnState × Nat
  | [], st => (st, 0)
  | (t, e) :: rest, st =>
    let r := init_ssh_client host t e st
    let (st2, n) := run_calls host rest r.state
    (st2, r.prompts + n)

/-- Outcome of `ssh_client.exec_command('nvidia-smi -q -x', timeout=5)` as
seen by `get_gpu_utilization`: an `SSHException`, any other exception, or
captured stdout/stderr. -/
inductive ExecOutcome where
  | sshException (msg : String)
  | otherException (msg : String)
  | output (stdout stderr : String)
deriving DecidableEq, Repr

/-- The command-execution part of `get_gpu_utilization` (src/gpumonitor.py
lines 219-264): transport exceptions close and invalidate the handle and
return an error text with utilization 0; otherwise stdout is parsed (stderr
is only logged). -/
def exec_query (execEnv : ExecOutcome) (st : ConnState) : (String × Int) × ConnState :=
  match execEnv with
  | ExecOutcome.sshException msg =>
    (("SSH error: " ++ msg, 0), {st with connected_active := false})
  | ExecOutcome.otherException msg =>
    (("Query error: " ++ msg, 0), {st with connected_active := false})
  | ExecOutcome.output out _stderr => (parseList out.data, st)

/-- `get_gpu_utilization` (src/gpumonitor.py lines 210-264): reconnect first
when the handle is dead (line 214); a reconnect failure short-circuits into
`("Disconnected: " ++ err, 0)` (line 217); otherwise run the query. -/
def get_gpu_utilization (host : String) (now : Int) (connEnv : AttemptResult)
    (execEnv : ExecOutcome) (st : ConnState) : (String × Int) × ConnState :=
  if st.connected_active then exec_query execEnv st
  else
    let r := init_ssh_client host now connEnv st
    match r.error with
    | some e => (("Disconnected: " ++ e, 0), r.state)
    | none => exec_query execEnv r.state

/-- All process-wide mutable state the poll loop touches. -/
structure GlobalState where
  conn : ConnState
  sched : SchedState
deriving DecidableEq, Repr

/-- What one iteration of `update_tooltip` publishes and computes. -/
structure StepOut where
  state : GlobalState
  title : String
  isError : Bool
  color : ColorClass
  sleep : Nat
deriving DecidableEq, Repr

/-- One iteration of the `update_tooltip` loop body (src/gpumonitor.py lines
268-286), in source order: query, classify `has_error`, write
`last_utilization := util_pct` (line 273, before the interval computation),
truncate and publish the title, select the icon color, compute the adaptive
sleep. -/
def update_tooltip_step (host : String) (adaptive : Bool) (base : Nat) (thr : Int)
    (now : Int) (connEnv : AttemptResult) (execEnv : ExecOutcome)
    (gs : GlobalState) : StepOut :=
  let q := get_gpu_utilization host now connEnv execEnv gs.conn
  let text := q.1.1
  let util := q.1.2
  let conn2 := q.2
  let hasErr := has_error_of text util
  let sched1 : SchedState := {gs.sched with last_utilization := util}
  let ai := get_adaptive_interval adaptive base sched1 util hasErr
  { state := { conn := conn2, sched := ai.2 },
    title := truncate128 text,
    isError := hasErr,
    color := select_color hasErr util thr,
    sleep := ai.1 }

/-- What `on_refresh` publishes. -/
structure RefreshOut where
  state : GlobalState
  title : String
  color : ColorClass
deriving DecidableEq, Repr

/-- `on_refresh` (src/gpumonitor.py lines 293-296): one query, the title set
to the full (untruncated) text, the icon red or green by threshold only; it
never touches `last_utilization`, `consecutive_errors`, or the loop's sleep. -/
def on_refresh (host : String) (thr : Int) (now : Int) (connEnv : AttemptResult)
    (execEnv : ExecOutcome) (gs : GlobalState) : RefreshOut :=
  let q := get_gpu_utilization host now connEnv execEnv gs.conn
  { state := { conn := q.2, sched := gs.sched },
    title := q.1.1,
    color := if q.1.2 > thr then ColorClass.alert else ColorClass.normal }

/-- The configuration values read at startup (src/gpumonitor.py lines
16-23). -/
structure Config where
  host : String
  user : String
  key_path : Option String
  update_interval : Int
  high_util_threshold : Int
  icon_path : String
  log_file : String
  adaptive_polling : Bool
deriving DecidableEq, Repr

/-- Filesystem oracle for the `os.path` calls of `validate_configuration`. -/
structure FS where
  expanduser : String → String
  pathExists : String → Bool
  readable : String → Bool

/-- The `errors` list built by `validate_configuration` (src/gpumonitor.py
lines 27-59), in source order.  `if REMOTE_KEY_PATH:` is false for both
`None` and the empty string.  The icon-path check (lines 52-53) only logs a
warning and adds no error. -/
def validate_errors (cfg : Config) (fs : FS) : List String :=
  (if cfg.host = "" ∨ cfg.host = "localhost"
   then ["Remote host not properly configured"] else [])
  ++ (match cfg.key_path with
      | some kp =>
        if kp = "" then []
        else
          let p := fs.expanduser kp
          if !(fs.pathExists p) then ["SSH key file not found: " ++ p]
          else if !(fs.readable p) then ["SSH key file not readable: " ++ p]
          else []
      | none => [])
  ++ (if cfg.update_interval < 1
      then ["Update interval must be at least 1 second"] else [])
  ++ (if 0 ≤ cfg.high_util_threshold ∧ cfg.high_util_threshold ≤ 100
      then [] else ["High utilization threshold must be between 0 and 100"])

/-- `validate_configuration` returns `False` exactly when the errors list is
non-empty (src/gpumonitor.py lines 55-62). -/
def validate_configuration (cfg : Config) (fs : FS) : Bool :=
  (validate_errors cfg fs).isEmpty

/-- The out-of-the-box configuration: every `config.get` fallback of
src/gpumonitor.py lines 16-23. -/
def defaultConfig : Config :=
  { host := "localhost", user := "user", key_path := none,
    update_interval := 5, high_util_threshold := 50,
    icon_path := "gpu_icon.png", log_file := "gpu_monitor.log",
    adaptive_polling := true }

/-- Startup gate (src/gpumonitor.py lines 304-307): the process exits with a
diagnostic, before creating the icon or starting any polling, iff validation
fails. -/
def startup_exits (cfg : Config) (fs : FS) : Bool :=
  !(validate_configuration cfg fs)

/-! ### Helper lemmas -/

theorem str_data_append (a b : String) : (a ++ b).data = a.data ++ b.data := by
  cases a
  cases b
  rfl

theorem isPrefixOf_self_append (l : List Char) : ∀ m : List Char, l.isPrefixOf (l ++ m) = true := by
  induction l with
  | nil => intro m; simp [List.isPrefixOf]
  | cons c t ih => intro m; simp [List.isPrefixOf, ih]

theorem strContainsList_self_append (needle m : List Char) :
    strContainsList needle (needle ++ m) = true := by
  cases needle with
  | nil =>
    cases m with
    | nil => rfl
    | cons c t => simp [strContainsList, List.isPrefixOf]
  | cons c t => simp [strContainsList, isPrefixOf_self_append]

theorem containsStr_self_append (p rest : String) : containsStr (p ++ rest) p = true := by
  unfold containsStr
  rw [str_data_append]
  exact strContainsList_self_append p.data rest.data

theorem isSpaceChar_cases {c : Char} (h : isSpaceChar c = true) :
    c = ' ' ∨ c = '\t' ∨ c = '\n' ∨ c = '\r' ∨ c = '\x0b' ∨ c = '\x0c' := by
  simp [isSpaceChar] at h
  tauto

theorem space_not_lt {c : Char} (h : isSpaceChar c = true) : ciChar c '<' = false := by
  rcases isSpaceChar_cases h with h1 | h1 | h1 | h1 | h1 | h1 <;> subst h1 <;> decide

theorem space_not_digit {c : Char} (h : isSpaceChar c = true) : c.isDigit = false := by
  rcases isSpaceChar_cases h with h1 | h1 | h1 | h1 | h1 | h1 <;> subst h1 <;> decide

theorem digit_not_space {c : Char} (h : c.isDigit = true) : isSpaceChar c = false := by
  cases hs : isSpaceChar c
  · rfl
  · exact absurd h (by simp [space_not_digit hs])

theorem matchLitCI_append (p : List Char) : ∀ (l m : List Char),
    matchLitCI p l = some [] → matchLitCI p (l ++ m) = some m := by
  induction p with
  | nil =>
    intro l m h
    simp [matchLitCI] at h
    subst h
    rfl
  | cons a as ih =>
    intro l m h
    cases l with
    | nil => exact absurd h (by simp [matchLitCI])
    | cons c cs =>
      simp only [List.cons_append, matchLitCI] at h ⊢
      split at h
      next hc =>
        rw [if_pos hc]
        exact ih cs m h
      next hc => exact absurd h (by simp)

theorem dropWhile_all_append (p : Char → Bool) : ∀ (l m : List Char),
    l.all p = true → List.dropWhile p (l ++ m) = List.dropWhile p m := by
  intro l
  induction l with
  | nil => intro m _; rfl
  | cons c t ih =>
    intro m h
    simp only [List.all_cons, Bool.and_eq_true] at h
    simp [List.dropWhile, h.1, ih m h.2]

theorem takeWhile_all_append_cons (p : Char → Bool) : ∀ (l : List Char) (c : Char) (m : List Char),
    l.all p = true → p c = false → List.takeWhile p (l ++ c :: m) = l := by
  intro l
  induction l with
  | nil => intro c m _ hc; simp [List.takeWhile, hc]
  | cons a t ih =>
    intro c m h hc
    simp only [List.all_cons, Bool.and_eq_true] at h
    simp [List.takeWhile, h.1, ih c m h.2 hc]

theorem dropWhile_all_append_cons (p : Char → Bool) : ∀ (l : List Char) (c : Char) (m : List Char),
    l.all p = true → p c = false → List.dropWhile p (l ++ c :: m) = c :: m := by
  intro l
  induction l with
  | nil => intro c m _ hc; simp [List.dropWhile, hc]
  | cons a t ih =>
    intro c m h hc
    simp only [List.all_cons, Bool.and_eq_true] at h
    simp [List.dropWhile, h.1, ih c m h.2 hc]

theorem tag_head_lt (tag : List Char)
    (h : matchLitCI "<gpu_util>".data tag = some []) :
    ∃ c t, tag = c :: t ∧ ciChar c '<' = true := by
  cases tag with
  | nil => exact absurd h (by decide)
  | cons c t =>
    refine ⟨c, t, rfl, ?_⟩
    have hd : "<gpu_util>".data = '<' :: "gpu_util>".data := rfl
    rw [hd] at h
    simp only [matchLitCI] at h
    by_cases hc : ciChar c '<' = true
    · exact hc
    · rw [if_neg hc] at h
      exact absurd h (by simp)

theorem matchPrimaryAt_cons_space {c : Char} (l : List Char)
    (h : isSpaceChar c = true) : matchPrimaryAt (c :: l) = none := by
  have hd : "<gpu_util>".data = '<' :: "gpu_util>".data := rfl
  simp [matchPrimaryAt, hd, matchLitCI, space_not_lt h]

theorem searchPrimary_all_space_append (lead : List Char) (l : List Char)
    (hlead : lead.all isSpaceChar = true) :
    searchPrimary (lead ++ l) = searchPrimary l := by
  induction lead with
  | nil => rfl
  | cons c t ih =>
    simp only [List.all_cons, Bool.and_eq_true] at hlead
    simp [searchPrimary, matchPrimaryAt_cons_space _ hlead.1, ih hlead.2]

theorem matchPrimaryAt_exact (tag ws ds rest : List Char)
    (htag : matchLitCI "<gpu_util>".data tag = some [])
    (hws : ws.all isSpaceChar = true)
    (hds : ds ≠ [])
    (hdig : ds.all Char.isDigit = true) :
    matchPrimaryAt (tag ++ (ws ++ (ds ++ '%' :: rest))) = some (digitVal ds) := by
  obtain ⟨d, ds', rfl⟩ := List.exists_cons_of_ne_nil hds
  have h1 : matchLitCI "<gpu_util>".data (tag ++ (ws ++ (d :: ds' ++ '%' :: rest))) =
      some (ws ++ (d :: ds' ++ '%' :: rest)) := matchLitCI_append _ _ _ htag
  have hd0 : d.isDigit = true := by
    simp only [List.all_cons, Bool.and_eq_true] at hdig
    exact hdig.1
  have h2 : List.dropWhile isSpaceChar (ws ++ (d :: ds' ++ '%' :: rest)) =
      d :: ds' ++ '%' :: rest := by
    rw [dropWhile_all_append isSpaceChar ws _ hws]
    simp [List.dropWhile, digit_not_space hd0]
  have h3 : List.takeWhile Char.isDigit ((d :: ds') ++ '%' :: rest) = d :: ds' :=
    takeWhile_all_append_cons Char.isDigit (d :: ds') '%' rest hdig (by decide)
  have h4 : List.dropWhile Char.isDigit ((d :: ds') ++ '%' :: rest) = '%' :: rest :=
    dropWhile_all_append_cons Char.isDigit (d :: ds') '%' rest hdig (by decide)
  simp only [matchPrimaryAt, h1, h2, h3, h4]

theorem parseList_nonneg (out : List Char) : 0 ≤ (parseList out).2 := by
  unfold parseList
  split
  · simp
  · split
    · simp
    · split
      · simp
      · simp

theorem exec_query_nonneg (e : ExecOutcome) (st : ConnState) : 0 ≤ (exec_query e st).1.2 := by
  unfold exec_query
  split <;> simp [parseList_nonneg]

/-! ### Claims -/

/-- C2, counterexample: on input `<gpu_util>250%` the parsing step returns
utilization 250, which is not in [0,100] — `get_gpu_utilization` never clamps
the captured digit run. -/
theorem C2_counterexample :
    (get_gpu_utilization "h" 0 AttemptResult.success
      (ExecOutcome.output "<gpu_util>250%" "") ⟨true, 0, 0⟩).1.2 = 250 ∧
    ¬((get_gpu_utilization "h" 0 AttemptResult.success
      (ExecOutcome.output "<gpu_util>250%" "") ⟨true, 0, 0⟩).1.2 ≤ 100) := by
  decide

/-- C2 (amended): for every input and every connection/query outcome, the
utilization produced by `get_gpu_utilization` is non-negative (it is either
the 0 error sentinel or a parsed decimal digit run); the upper bound 100 does
not hold in general. -/
theorem C2_amended (host : String) (now : Int) (cEnv : AttemptResult)
    (eEnv : ExecOutcome) (st : ConnState) :
    0 ≤ (get_gpu_utilization host now cEnv eEnv st).1.2 := by
  unfold get_gpu_utilization
  split
  · exact exec_query_nonneg eEnv st
  · cases h : (init_ssh_client host now cEnv st).error with
    | some e => simp [h]
    | none =>
      simpa [h] using exec_query_nonneg eEnv (init_ssh_client host now cEnv st).state

/-- C5, counterexample: with the connection established and the transport
active (state `⟨true, 0, 100⟩`), a call made within the backoff window
(`now = 100 = last_attempt`, window `5 ^ 0 = 1` second) does not return
success: the backoff gate runs before the already-connected check and the
call returns a `Backing off` error. -/
theorem C5_counterexample :
    (⟨true, 0, 100⟩ : ConnState).connected_active = true ∧
    (init_ssh_client "h" 100 AttemptResult.success ⟨true, 0, 100⟩).error.isSome = true := by
  decide

/-- C5 (amended): when the connection state is Connected with an active
transport AND the backoff gate has elapsed
(`now - last_attempt ≥ 5 ^ min retry 5`), `init_ssh_client` returns success
immediately without any connect attempt or prompt, for every retry count; the
only state change is recording the attempt timestamp.  Within the backoff
window the call instead fails fast with `Backing off`, even while
connected. -/
theorem C5_amended (host : String) (now : Int) (env : AttemptResult) (st : ConnState)
    (hconn : st.connected_active = true)
    (hgate : (5 : Int) ^ min st.retry 5 ≤ now - st.last_attempt) :
    init_ssh_client host now env st =
      { error := none, state := {st with last_attempt := now}, prompts := 0 } := by
  simp only [init_ssh_client]
  rw [if_neg (not_lt.mpr hgate)]
  simp [hconn]

/-- C5 witness: a concrete connected state with retry count 2 and an elapsed
gate (`25 ≤ 100 - 50`) returns success as a near-no-op. -/
theorem C5_amended_witness :
    init_ssh_client "h" 100 AttemptResult.success ⟨true, 2, 50⟩ =
      { error := none, state := ⟨true, 2, 100⟩, prompts := 0 } :=
  C5_amended "h" 100 AttemptResult.success ⟨true, 2, 50⟩ rfl (by decide)

/-- C6: for every non-error call of `get_adaptive_interval` with adaptive
mode enabled, with `delta = |currentUtilization - lastUtilization|`:
`delta > 10` yields `max 1 (base / 3)`, `delta < 2` yields `base * 2`, and
every delta in [2,10] — in particular the boundaries 2 and 10 — yields
exactly `base`. -/
theorem C6_thresholds (base : Nat) (st : SchedState) (util : Int) :
    ((util - st.last_utilization).natAbs > 10 →
      (get_adaptive_interval true base st util false).1 = max 1 (base / 3)) ∧
    ((util - st.last_utilization).natAbs < 2 →
      (get_adaptive_interval true base st util false).1 = base * 2) ∧
    (2 ≤ (util - st.last_utilization).natAbs →
      (util - st.last_utilization).natAbs ≤ 10 →
      (get_adaptive_interval true base st util false).1 = base) := by
  refine ⟨?_, ?_, ?_⟩
  · intro h
    simp [get_adaptive_interval, h]
  · intro h
    have h10 : ¬((util - st.last_utilization).natAbs > 10) := by omega
    simp [get_adaptive_interval, h, h10]
  · intro h2 h10
    have ha : ¬((util - st.last_utilization).natAbs > 10) := by omega
    have hb : ¬((util - st.last_utilization).natAbs < 2) := by omega
    simp [get_adaptive_interval, ha, hb]

/-- C6 witness: base 6; delta 45 gives `max 1 (6/3)`, delta 1 gives 12, and
the boundary deltas 10 and 2 give exactly 6. -/
theorem C6_thresholds_witness :
    (get_adaptive_interval true 6 ⟨20, 0⟩ 65 false).1 = max 1 (6 / 3) ∧
    (get_adaptive_interval true 6 ⟨20, 0⟩ 21 false).1 = 6 * 2 ∧
    (get_adaptive_interval true 6 ⟨20, 0⟩ 30 false).1 = 6 ∧
    (get_adaptive_interval true 6 ⟨20, 0⟩ 22 false).1 = 6 :=
  ⟨(C6_thresholds 6 ⟨20, 0⟩ 65).1 (by decide),
   (C6_thresholds 6 ⟨20, 0⟩ 21).2.1 (by decide),
   (C6_thresholds 6 ⟨20, 0⟩ 30).2.2 (by decide) (by decide),
   (C6_thresholds 6 ⟨20, 0⟩ 22).2.2 (by decide) (by decide)⟩

/-- C7: for every non-error call, any scheduler state, and any utilization,
given base ≥ 1 the returned delay is ≥ 1 and ≤ base * 2, whether adaptive
mode is enabled or disabled. -/
theorem C7_bounds (adaptive : Bool) (base : Nat) (st : SchedState) (util : Int)
    (hbase : 1 ≤ base) :
    1 ≤ (get_adaptive_interval adaptive base st util false).1 ∧
    (get_adaptive_interval adaptive base st util false).1 ≤ base * 2 := by
  unfold get_adaptive_interval
  cases adaptive with
  | false =>
    simp
    omega
  | true =>
    simp only [Bool.not_true, Bool.false_eq_true, if_false]
    split_ifs <;> constructor <;> omega

/-- C7 witness: a concrete non-error call with base 5 stays within
[1, 10]. -/
theorem C7_bounds_witness :
    1 ≤ (get_adaptive_interval true 5 ⟨0, 0⟩ 3 false).1 ∧
    (get_adaptive_interval true 5 ⟨0, 0⟩ 3 false).1 ≤ 5 * 2 :=
  C7_bounds true 5 ⟨0, 0⟩ 3 (by decide)

/-- C9, counterexample: a process run making two `init_ssh_client` calls that
both hit `PasswordRequiredException` (a drop followed by a reconnect with a
passphrase-protected key) shows the interactive prompt twice — the passphrase
is a local variable and is never cached across calls. -/
theorem C9_counterexample :
    (run_calls "h" [(10, AttemptResult.passphraseRequired false "x"),
                    (100, AttemptResult.passphraseRequired false "x")] ⟨false, 0, 0⟩).2 = 2 ∧
    ¬((run_calls "h" [(10, AttemptResult.passphraseRequired false "x"),
                      (100, AttemptResult.passphraseRequired false "x")] ⟨false, 0, 0⟩).2 ≤ 1) := by
  decide

/-- C9 (amended): the interactive passphrase prompt is shown at most once per
`init_ssh_client` call (per connection attempt), not at most once per
process: every attempt that signals passphrase-required prompts again. -/
theorem C9_amended (host : String) (now : Int) (env : AttemptResult) (st : ConnState) :
    (init_ssh_client host now env st).prompts ≤ 1 := by
  unfold init_ssh_client
  by_cases hb : now - st.last_attempt < (5 : Int) ^ min st.retry 5
  · simp [hb]
  · by_cases hc : st.connected_active = true
    · simp [hb, hc]
    · cases env with
      | success => simp [hb, hc]
      | passphraseRequired ok msg => cases ok <;> simp [hb, hc]
      | hostUnreachable => simp [hb, hc]
      | authFailed => simp [hb, hc]
      | otherError msg => simp [hb, hc]

/-- C10: whenever the configured remote host is empty or equals the fallback
value "localhost", `validate_configuration` returns false and startup exits
with a diagnostic, regardless of every other configuration value and of the
filesystem. -/
theorem C10_host_invalid (cfg : Config) (fs : FS)
    (h : cfg.host = "" ∨ cfg.host = "localhost") :
    validate_configuration cfg fs = false ∧ startup_exits cfg fs = true := by
  have herr : ∃ tl, validate_errors cfg fs = "Remote host not properly configured" :: tl := by
    unfold validate_errors
    rw [if_pos h]
    exact ⟨_, rfl⟩
  obtain ⟨tl, htl⟩ := herr
  constructor
  · simp [validate_configuration, htl]
  · simp [startup_exits, validate_configuration, htl]

/-- C10 witness: the out-of-the-box default configuration (host
"localhost") is rejected at startup, so it never starts polling. -/
theorem C10_host_invalid_witness :
    validate_configuration defaultConfig
      { expanduser := id, pathExists := fun _ => true, readable := fun _ => true } = false ∧
    startup_exits defaultConfig
      { expanduser := id, pathExists := fun _ => true, readable := fun _ => true } = true :=
  C10_host_invalid defaultConfig
    { expanduser := id, pathExists := fun _ => true, readable := fun _ => true }
    (Or.inr rfl)

/-- C1, counterexample: a poll cycle whose query returns empty stdout (the
NoData failure path) publishes `isError = false` and the Normal (green) color
class, not gray — "No GPU data" contains neither "Error" nor
"Disconnected". -/
theorem C1_counterexample :
    (update_tooltip_step "h" true 5 50 0 AttemptResult.success
      (ExecOutcome.output " " "") ⟨⟨true, 0, 0⟩, ⟨0, 0⟩⟩).title = "No GPU data" ∧
    (update_tooltip_step "h" true 5 50 0 AttemptResult.success
      (ExecOutcome.output " " "") ⟨⟨true, 0, 0⟩, ⟨0, 0⟩⟩).isError = false ∧
    (update_tooltip_step "h" true 5 50 0 AttemptResult.success
      (ExecOutcome.output " " "") ⟨⟨true, 0, 0⟩, ⟨0, 0⟩⟩).color = ColorClass.normal := by
  decide

/-- C1 (amended): only failure cycles whose text contains "Error" or
"Disconnected" are classified as errors.  Every connection-failure cycle
(text "Disconnected: ...", including backoff, host-unreachable and
authentication failures) publishes `isError = true` and the offline (gray)
color class; the NoData, parse-failure and transport-error paths are
classified by the same substring test and in general publish as non-error
Normal (see the counterexample). -/
theorem C1_amended (host : String) (adaptive : Bool) (base : Nat) (thr : Int)
    (now : Int) (cEnv : AttemptResult) (eEnv : ExecOutcome) (gs : GlobalState) (e : String)
    (hconn : gs.conn.connected_active = false)
    (hfail : (init_ssh_client host now cEnv gs.conn).error = some e) :
    (update_tooltip_step host adaptive base thr now cEnv eEnv gs).isError = true ∧
    (update_tooltip_step host adaptive base thr now cEnv eEnv gs).color = ColorClass.offline := by
  have hq : get_gpu_utilization host now cEnv eEnv gs.conn =
      (("Disconnected: " ++ e, 0), (init_ssh_client host now cEnv gs.conn).state) := by
    simp [get_gpu_utilization, hconn, hfail]
  have hcontains : containsStr ("Disconnected: " ++ e) "Disconnected" = true := by
    unfold containsStr
    rw [str_data_append]
    have h2 : ("Disconnected: ").data = "Disconnected".data ++ ": ".data := rfl
    rw [h2, List.append_assoc]
    exact strContainsList_self_append "Disconnected".data (": ".data ++ e.data)
  have herr : has_error_of ("Disconnected: " ++ e) 0 = true := by
    simp [has_error_of, hcontains]
  constructor
  · simp [update_tooltip_step, hq, herr]
  · simp [update_tooltip_step, hq, herr, select_color]

/-- C1 witness: an unreachable-host cycle from a disconnected state is
classified as an error and shown gray. -/
theorem C1_amended_witness :
    (update_tooltip_step "h" true 5 50 10 AttemptResult.hostUnreachable
      (ExecOutcome.output "" "") ⟨⟨false, 0, 0⟩, ⟨0, 0⟩⟩).isError = true ∧
    (update_tooltip_step "h" true 5 50 10 AttemptResult.hostUnreachable
      (ExecOutcome.output "" "") ⟨⟨false, 0, 0⟩, ⟨0, 0⟩⟩).color = ColorClass.offline :=
  C1_amended "h" true 5 50 10 AttemptResult.hostUnreachable (ExecOutcome.output "" "")
    ⟨⟨false, 0, 0⟩, ⟨0, 0⟩⟩ "Host unreachable: h" rfl (by decide)

/-- First demonstration cycle for C3: connected, adaptive polling on, base
interval 5, reading 20. -/
def c3_step1 : StepOut :=
  update_tooltip_step "h" true 5 50 0 AttemptResult.success
    (ExecOutcome.output "<gpu_util>20%" "") ⟨⟨true, 0, 0⟩, ⟨0, 0⟩⟩

/-- Second demonstration cycle for C3: reading 65 after the 20 of the first
cycle. -/
def c3_step2 : StepOut :=
  update_tooltip_step "h" true 5 50 0 AttemptResult.success
    (ExecOutcome.output "<gpu_util>65%" "") c3_step1.state

/-- C3, code bug: the loop writes `last_utilization := util_pct` before
calling `get_adaptive_interval`, so the scheduler always sees delta 0.  With
base interval 5 and readings 20 then 65 (delta 45 per the claim), the delay
after the second cycle is `5 * 2 = 10` (the stable branch), not
`max 1 (5 / 3) = 1` as the rapid-change rule requires. -/
theorem C3_bug :
    c3_step1.state.sched.last_utilization = 20 ∧
    c3_step2.sleep = 5 * 2 ∧
    max 1 (5 / 3) = 1 ∧
    c3_step2.sleep ≠ max 1 (5 / 3) := by
  decide

/-- C4, counterexample: on the spec's scenario-B input
`<gpu_util>   82 %  </gpu_util>` (a space between the digits and the percent
sign) both regex strategies fail — the primary requires `%` immediately after
the digits and the fallback requires a digit immediately after `>` — so the
parse returns the not-found result with utilization 0, and with threshold 50
the published color class is Normal, not Alert. -/
theorem C4_counterexample :
    parseList "<gpu_util>   82 %  </gpu_util>".data = ("GPU data not found", 0) ∧
    (update_tooltip_step "h" true 5 50 0 AttemptResult.success
      (ExecOutcome.output "<gpu_util>   82 %  </gpu_util>" "") ⟨⟨true, 0, 0⟩, ⟨0, 0⟩⟩).color =
      ColorClass.normal ∧
    ColorClass.normal ≠ ColorClass.alert := by
  decide

/-- C4 (amended): the parser is tolerant of leading whitespace, of tag case,
and of whitespace between the tag and the digits — for every digit string
(in particular every u in [0,100] written in decimal) embedded as
`<gpu_util>` + whitespace + digits + `%`, the parse returns exactly the
embedded value — but the `%` must immediately follow the digits: whitespace
there makes both strategies fail (see the counterexample). -/
theorem C4_amended (lead tag ws ds rest : List Char)
    (hlead : lead.all isSpaceChar = true)
    (htag : matchLitCI "<gpu_util>".data tag = some [])
    (hws : ws.all isSpaceChar = true)
    (hds : ds ≠ [])
    (hdig : ds.all Char.isDigit = true) :
    parseList (lead ++ (tag ++ (ws ++ (ds ++ '%' :: rest)))) =
      ("GPU: " ++ toString (digitVal ds) ++ "%", (digitVal ds : Int)) := by
  obtain ⟨c0, t0, htag0, hc0⟩ := tag_head_lt tag htag
  have hmatch : matchPrimaryAt (tag ++ (ws ++ (ds ++ '%' :: rest))) = some (digitVal ds) :=
    matchPrimaryAt_exact tag ws ds rest htag hws hds hdig
  have hsearch : searchPrimary (lead ++ (tag ++ (ws ++ (ds ++ '%' :: rest)))) =
      some (digitVal ds) := by
    rw [searchPrimary_all_space_append lead _ hlead]
    rw [htag0] at hmatch ⊢
    simp only [List.cons_append] at hmatch ⊢
    simp [searchPrimary, hmatch]
  have hc0sp : isSpaceChar c0 = false := by
    cases hsp : isSpaceChar c0
    · rfl
    · exact absurd hc0 (by simp [space_not_lt hsp])
  have hnall : (lead ++ (tag ++ (ws ++ (ds ++ '%' :: rest)))).all isSpaceChar = false := by
    rw [htag0]
    simp [List.all_append, hc0sp]
  simp [parseList, hnall, hsearch]

/-- C4 witness: `  <GPU_Util>  82%</gpu_util>` (leading whitespace, mixed tag
case, whitespace before the digits, `%` directly after them) parses to 82. -/
theorem C4_amended_witness :
    parseList ("  ".data ++ ("<GPU_Util>".data ++ ("  ".data ++ (['8', '2'] ++ '%' :: "</gpu_util>".data)))) =
      ("GPU: " ++ toString (digitVal ['8', '2']) ++ "%", (digitVal ['8', '2'] : Int)) :=
  C4_amended "  ".data "<GPU_Util>".data "  ".data ['8', '2'] "</gpu_util>".data
    (by decide) (by decide) (by decide) (by decide) (by decide)

set_option maxRecDepth 8192 in
/-- C8, counterexample: a manual refresh on a failed cycle (a generic
connection error with a 150-character detail) publishes the full
182-character text untruncated and the Normal (green) color class — neither
the 128-character truncation nor the offline-on-error classification of the
claim happens in `on_refresh`. -/
theorem C8_counterexample :
    (on_refresh "h" 50 10 (AttemptResult.otherError (String.mk (List.replicate 150 'a')))
      (ExecOutcome.output "" "") ⟨⟨false, 0, 0⟩, ⟨0, 0⟩⟩).color = ColorClass.normal ∧
    (on_refresh "h" 50 10 (AttemptResult.otherError (String.mk (List.replicate 150 'a')))
      (ExecOutcome.output "" "") ⟨⟨false, 0, 0⟩, ⟨0, 0⟩⟩).title.length = 182 ∧
    ¬((on_refresh "h" 50 10 (AttemptResult.otherError (String.mk (List.replicate 150 'a')))
      (ExecOutcome.output "" "") ⟨⟨false, 0, 0⟩, ⟨0, 0⟩⟩).title.length ≤ 128) := by
  decide

/-- C8 (amended): a manual refresh performs one query-publish cycle and
leaves the scheduler's state (lastUtilization, consecutiveErrors) and the
sleeping loop's pending delay unchanged, but it publishes the display text
untruncated and never selects the offline color class: the color is Alert
iff utilization exceeds the threshold and Normal otherwise, even on a
failure cycle. -/
theorem C8_amended (host : String) (thr now : Int) (cEnv : AttemptResult)
    (eEnv : ExecOutcome) (gs : GlobalState) :
    (on_refresh host thr now cEnv eEnv gs).state.sched = gs.sched ∧
    (on_refresh host thr now cEnv eEnv gs).color ≠ ColorClass.offline ∧
    (on_refresh host thr now cEnv eEnv gs).title =
      (get_gpu_utilization host now cEnv eEnv gs.conn).1.1 := by
  refine ⟨rfl, ?_, rfl⟩
  simp only [on_refresh]
  split <;> simp
